import Mathlib

/-!
Shallow embedding of the ResQnova earthquake exposure pipeline (app.py).

Modelling conventions:
- Latitude, longitude, magnitudes and density samples are rationals; the
  arithmetic of the estimator is carried out over the reals with the exact
  constant pi, reflecting the formula the code computes with `np.pi`.
- The Python builtin `int` truncates toward zero; `int_trunc` models it.
- `get_population_density` wraps an external raster reader; it is modelled
  as an oracle parameter `density_at : Q -> Q -> Option Q`, where `none`
  is the `None` the Python function returns on any raster failure.
- The globals `heatmap_data` (a list) and `population_data` (a dict) form
  the `State`. A Python dict is modelled as an insertion-ordered
  association list where inserting an existing key overwrites in place.
- The estimate stored per coordinate is `Option Int`: `none` stands for
  the string result "Unknown", `some n` for the integer `n`.
- `fetch_usgs_earthquake_data` performs network I/O; its input is
  modelled as `FetchInput`: either a transport error (an exception from
  `requests.get`) or an HTTP response with a status code and the parsed
  feature list. A feature whose coordinates or magnitude entry is absent
  makes the extraction loop raise, and the surrounding handler turns the
  exception into a `None` result for the whole fetch.
- `update_heatmap` loops forever; `update_heatmap_cycle` models the body
  of one iteration. The Python truthiness test `if usgs_data:` is false
  both for `None` and for the empty list.
-/

/-- Python `int()` applied to a float value: truncation toward zero. -/
noncomputable def int_trunc (x : ℝ) : ℤ := if 0 ≤ x then ⌊x⌋ else ⌈x⌉

/-- An earthquake event as the tuple `(lat, lon, magnitude)` built by the
fetch loop. -/
structure Event where
  lat : ℚ
  lon : ℚ
  mag : ℚ
  deriving DecidableEq

/-- A raw GeoJSON feature as far as the fetch loop inspects it: the
`geometry.coordinates` array (absent when the key is missing) and the
`properties.mag` entry (absent when the key is missing). -/
structure Feature where
  coords : Option (List ℚ)
  mag : Option ℚ
  deriving DecidableEq

/-- Input to one call of `fetch_usgs_earthquake_data`: either the HTTP
request raised, or it returned a response with a status code and parsed
features. -/
inductive FetchInput where
  | transportError : FetchInput
  | response (status : ℕ) (features : List Feature) : FetchInput

/-- Extraction of one event from a feature:
`lat = coordinates[1]`, `lon = coordinates[0]`, `magnitude = properties["mag"]`.
`none` means the lookups raise (missing key or too-short array). -/
def extractEvent (f : Feature) : Option Event :=
  match f.coords with
  | none => none
  | some cs =>
    match cs.get? 1, cs.get? 0, f.mag with
    | some la, some lo, some m => some ⟨la, lo, m⟩
    | _, _, _ => none

/-- The `for feature in data["features"]` loop: any raising record aborts
the whole traversal (the exception escapes the loop). -/
def extract_events : List Feature → Option (List Event)
  | [] => some []
  | f :: fs =>
    match extractEvent f with
    | none => none
    | some e =>
      match extract_events fs with
      | none => none
      | some es => some (e :: es)

/-- `fetch_usgs_earthquake_data`: returns the extracted event list on a
status-200 response, `None` on a transport error, a non-200 status, or an
exception while extracting records. -/
def fetch_usgs_earthquake_data : FetchInput → Option (List Event)
  | .transportError => none
  | .response status features =>
    if status = 200 then extract_events features else none

/-- A coordinate pair `(lat, lon)`, the key of `population_data`. -/
abbrev Coord := ℚ × ℚ

/-- A stored per-event estimate: `none` is the "Unknown" result. -/
abbrev Estimate := Option ℤ

/-- Python dict insertion `d[k] = v` on an insertion-ordered association
list: an existing key is overwritten in place, a new key is appended. -/
def dictInsert (k : Coord) (v : Estimate) : List (Coord × Estimate) → List (Coord × Estimate)
  | [] => [(k, v)]
  | (k₁, v₁) :: rest => if k₁ = k then (k, v) :: rest else (k₁, v₁) :: dictInsert k v rest

/-- Python dict lookup `d.get(k)` on the association-list model. -/
def dictGet (k : Coord) : List (Coord × Estimate) → Option Estimate
  | [] => none
  | (k₁, v₁) :: rest => if k₁ = k then some v₁ else dictGet k rest

/-- The shared module state: the globals `heatmap_data` and
`population_data`. -/
structure State where
  heatmap_data : List (ℚ × ℚ × ℚ)
  population_data : List (Coord × Estimate)
  deriving DecidableEq

/-- `estimate_affected_people`: samples the density oracle, returns
"Unknown" (`none`) when the sample is `None`, otherwise
`int(density * (pi * (magnitude * 10) ** 2))`. -/
noncomputable def estimate_affected_people (density_at : ℚ → ℚ → Option ℚ)
    (lat lon magnitude : ℚ) : Estimate :=
  match density_at lat lon with
  | none => none
  | some population_density =>
    let impact_radius_km : ℚ := magnitude * 10
    let impact_area_km2 : ℝ := Real.pi * ((impact_radius_km : ℝ)) ^ 2
    some (int_trunc ((population_density : ℝ) * impact_area_km2))

/-- The body of the `for lat, lon, magnitude in usgs_data` loop in
`process_usgs_data`: append to the heatmap list, store the estimate under
the `(lat, lon)` key. -/
noncomputable def process_step (density_at : ℚ → ℚ → Option ℚ) (s : State) (e : Event) : State :=
  { heatmap_data := s.heatmap_data ++ [(e.lat, e.lon, e.mag)],
    population_data :=
      dictInsert (e.lat, e.lon)
        (estimate_affected_people density_at e.lat e.lon e.mag) s.population_data }

/-- `process_usgs_data`: on a truthy (nonempty) event list, clears both
globals and rebuilds them from the events; on a falsy list it only prints
and leaves the state alone. -/
noncomputable def process_usgs_data (density_at : ℚ → ℚ → Option ℚ)
    (usgs_data : List Event) (st : State) : State :=
  if usgs_data = [] then st
  else usgs_data.foldl (process_step density_at) ⟨[], []⟩

/-- One iteration of the `update_heatmap` loop: fetch, then
`if usgs_data: process_usgs_data(usgs_data)` — the truthiness test skips
the update both when the fetch failed (`None`) and when it returned an
empty list. -/
noncomputable def update_heatmap_cycle (density_at : ℚ → ℚ → Option ℚ)
    (inp : FetchInput) (st : State) : State :=
  match fetch_usgs_earthquake_data inp with
  | none => st
  | some evs => if evs = [] then st else process_usgs_data density_at evs st

/-- The most-severe selection in `create_heatmap`:
`max(heatmap_data, key=lambda x: x[2])`, applied only when the list is
truthy; Python `max` keeps the first element on ties. -/
def most_extreme : List (ℚ × ℚ × ℚ) → Option (ℚ × ℚ × ℚ)
  | [] => none
  | x :: xs => some (xs.foldl (fun b y => if b.2.2 < y.2.2 then y else b) x)

/-! ## Helper lemmas -/

theorem int_trunc_of_nonneg (x : ℝ) (h : 0 ≤ x) : int_trunc x = ⌊x⌋ := if_pos h

theorem int_trunc_nonneg (x : ℝ) (h : 0 ≤ x) : 0 ≤ int_trunc x := by
  rw [int_trunc_of_nonneg x h]
  exact Int.floor_nonneg.mpr h

/-! ## Claims -/

/-- Claim C7: processing the same event list twice in a row with the same
density oracle yields the same state as processing it once, so the two
published snapshots are identical. -/
theorem process_usgs_data_idempotent (density_at : ℚ → ℚ → Option ℚ)
    (evs : List Event) (st : State) :
    process_usgs_data density_at evs (process_usgs_data density_at evs st)
      = process_usgs_data density_at evs st := by
  by_cases h : evs = [] <;> simp [process_usgs_data, h]

/-- Claim C4: when the fetch fails — a transport error or a response whose
status code is not 200 — the refresh cycle leaves both globals exactly as
the previous cycle left them. -/
theorem failed_fetch_preserves_state (density_at : ℚ → ℚ → Option ℚ)
    (inp : FetchInput) (st : State)
    (h : inp = .transportError ∨ ∃ s fs, inp = .response s fs ∧ s ≠ 200) :
    update_heatmap_cycle density_at inp st = st := by
  rcases h with h | ⟨s, fs, h, hs⟩
  · subst h
    simp [update_heatmap_cycle, fetch_usgs_earthquake_data]
  · subst h
    simp [update_heatmap_cycle, fetch_usgs_earthquake_data, hs]

/-- Witness for C4: a 404 response leaves a concrete nonempty state
unchanged. -/
theorem failed_fetch_preserves_state_witness :
    update_heatmap_cycle (fun _ _ => none) (.response 404 []) ⟨[(0, 0, 5)], []⟩
      = ⟨[(0, 0, 5)], []⟩ :=
  failed_fetch_preserves_state (fun _ _ => none) (.response 404 []) ⟨[(0, 0, 5)], []⟩
    (Or.inr ⟨404, [], rfl, by norm_num⟩)

/-- Counterexample to claim C3: a successful fetch of zero qualifying
events (`some []`) does not reset the snapshot — a previous nonempty
heatmap survives the cycle untouched. -/
theorem empty_fetch_retains_previous_data :
    fetch_usgs_earthquake_data (.response 200 []) = some [] ∧
    (update_heatmap_cycle (fun _ _ => none) (.response 200 [])
        ⟨[(0, 0, 5)], [((0, 0), some 3)]⟩).heatmap_data ≠ ([] : List (ℚ × ℚ × ℚ)) := by
  refine ⟨rfl, ?_⟩
  simp [update_heatmap_cycle, fetch_usgs_earthquake_data, extract_events]

/-- Claim C3 (amended): a successful fetch with zero qualifying events is
treated exactly like a failed fetch — the previous state is retained
unchanged, because the truthiness test on the empty list is false. -/
theorem empty_fetch_preserves_state (density_at : ℚ → ℚ → Option ℚ) (st : State) :
    update_heatmap_cycle density_at (.response 200 []) st = st := by
  simp [update_heatmap_cycle, fetch_usgs_earthquake_data, extract_events]

/-- Claim C1: with a known density sample `d ≥ 0` and a magnitude `m ≥ 0`
the estimate is `some ⌊d * pi * (10 * m) ^ 2⌋`; the result is unknown
(`none`) exactly when the density lookup returned `none`; and magnitude 0
with a known density gives the number 0, not unknown. -/
theorem estimate_matches_spec_formula (density_at : ℚ → ℚ → Option ℚ)
    (lat lon m : ℚ) (hm : 0 ≤ m) :
    (estimate_affected_people density_at lat lon m = none ↔ density_at lat lon = none) ∧
    (∀ d : ℚ, 0 ≤ d → density_at lat lon = some d →
      estimate_affected_people density_at lat lon m
        = some ⌊(d : ℝ) * Real.pi * ((10 : ℝ) * (m : ℝ)) ^ 2⌋) ∧
    (m = 0 → density_at lat lon ≠ none →
      estimate_affected_people density_at lat lon m = some 0) := by
  refine ⟨?_, ?_, ?_⟩
  · cases h : density_at lat lon <;> simp [estimate_affected_people, h]
  · intro d hd h
    have harg : ((d : ℚ) : ℝ) * (Real.pi * (((m * 10 : ℚ) : ℝ)) ^ 2)
        = (d : ℝ) * Real.pi * ((10 : ℝ) * (m : ℝ)) ^ 2 := by
      push_cast
      ring
    have hnn : 0 ≤ ((d : ℚ) : ℝ) * (Real.pi * (((m * 10 : ℚ) : ℝ)) ^ 2) := by
      have hd' : (0 : ℝ) ≤ (d : ℝ) := by exact_mod_cast hd
      positivity
    simp only [estimate_affected_people, h]
    rw [int_trunc_of_nonneg _ hnn, harg]
  · intro hm0 h
    cases hd : density_at lat lon with
    | none => exact absurd hd h
    | some d =>
      subst hm0
      simp only [estimate_affected_people, hd]
      norm_num [int_trunc]

/-- Witness for C1: density constantly 1, magnitude 1: the estimate is
`some ⌊pi * 100⌋`, and unknown-iff-unknown holds at this input. -/
theorem estimate_matches_spec_formula_witness :
    (estimate_affected_people (fun _ _ => some 1) 0 0 1 = none ↔
      (some 1 : Option ℚ) = none) ∧
    estimate_affected_people (fun _ _ => some 1) 0 0 1
      = some ⌊(1 : ℝ) * Real.pi * ((10 : ℝ) * (1 : ℝ)) ^ 2⌋ := by
  have h := estimate_matches_spec_formula (fun _ _ => some 1) 0 0 1 (by norm_num)
  exact ⟨h.1, by exact_mod_cast h.2.1 1 (by norm_num) rfl⟩

/-- Counterexample to claim C2: a negative magnitude with a known density
does not produce "unknown" — the squared radius makes the product
nonnegative and the code returns a number. -/
theorem negative_magnitude_not_unknown :
    estimate_affected_people (fun _ _ => some 1) 0 0 (-1) ≠ none := by
  simp [estimate_affected_people]

/-- Claim C2 (amended): whenever the density sample is known and
nonnegative the estimate is a nonnegative number — for any magnitude,
negative ones included, because the impact radius is squared; and a failed
density lookup yields unknown, never a fabricated number. -/
theorem estimate_never_negative (density_at : ℚ → ℚ → Option ℚ) (lat lon m : ℚ) :
    (∀ d : ℚ, 0 ≤ d → density_at lat lon = some d →
      ∃ n : ℤ, estimate_affected_people density_at lat lon m = some n ∧ 0 ≤ n) ∧
    (density_at lat lon = none → estimate_affected_people density_at lat lon m = none) := by
  constructor
  · intro d hd h
    refine ⟨int_trunc (((d : ℚ) : ℝ) * (Real.pi * (((m * 10 : ℚ) : ℝ)) ^ 2)), ?_, ?_⟩
    · simp [estimate_affected_people, h]
    · refine int_trunc_nonneg _ ?_
      have hd' : (0 : ℝ) ≤ (d : ℝ) := by exact_mod_cast hd
      positivity
  · intro h
    simp [estimate_affected_people, h]

/-- Witness for C2 (amended): at density 1 and magnitude -1 the estimate
is a nonnegative number, and with an unknown density it is unknown. -/
theorem estimate_never_negative_witness :
    (∃ n : ℤ, estimate_affected_people (fun _ _ => some 1) 0 0 (-1) = some n ∧ 0 ≤ n) ∧
    estimate_affected_people (fun _ _ => none) 0 0 (-1) = none := by
  constructor
  · exact (estimate_never_negative (fun _ _ => some 1) 0 0 (-1)).1 1 (by norm_num) rfl
  · exact (estimate_never_negative (fun _ _ => none) 0 0 (-1)).2 rfl

/-- Counterexample to claim C5: a payload holding one well-formed record
and one record with missing coordinates makes the whole fetch return
`None`; the well-formed record is not returned. -/
theorem malformed_record_aborts_fetch :
    extractEvent ⟨some [77.2, 28.6], some 5⟩ = some ⟨28.6, 77.2, 5⟩ ∧
    fetch_usgs_earthquake_data
      (.response 200 [⟨some [77.2, 28.6], some 5⟩, ⟨none, some 6⟩]) = none :=
  ⟨rfl, rfl⟩

theorem extract_events_eq_none_of_mem (features : List Feature) (f : Feature)
    (hf : f ∈ features) (hbad : extractEvent f = none) :
    extract_events features = none := by
  induction features with
  | nil => cases hf
  | cons g gs ih =>
    rcases List.mem_cons.mp hf with h | h
    · subst h
      simp [extract_events, hbad]
    · cases hg : extractEvent g with
      | none => simp [extract_events, hg]
      | some e => simp [extract_events, hg, ih h]

/-- Claim C5 (amended): a record with missing coordinates or magnitude is
not skipped — the exception it raises escapes the extraction loop to the
fetch-level handler, so the whole fetch returns failure and every record
of the payload is discarded. -/
theorem malformed_record_fails_whole_fetch (features : List Feature) (f : Feature)
    (hf : f ∈ features) (hbad : extractEvent f = none) :
    fetch_usgs_earthquake_data (.response 200 features) = none := by
  simp only [fetch_usgs_earthquake_data, if_pos rfl]
  exact extract_events_eq_none_of_mem features f hf hbad

/-- Witness for C5 (amended): a single record with both keys missing makes
the fetch fail. -/
theorem malformed_record_fails_whole_fetch_witness :
    fetch_usgs_earthquake_data (.response 200 [⟨none, none⟩]) = none :=
  malformed_record_fails_whole_fetch [⟨none, none⟩] ⟨none, none⟩ (by simp) rfl

theorem dictInsert_keys_mem (k a : Coord) (v : Estimate) (l : List (Coord × Estimate)) :
    a ∈ (dictInsert k v l).map Prod.fst ↔ a = k ∨ a ∈ l.map Prod.fst := by
  induction l with
  | nil => simp [dictInsert]
  | cons p rest ih =>
    obtain ⟨k₁, v₁⟩ := p
    by_cases h : k₁ = k
    · subst h
      simp [dictInsert]
    · simp only [dictInsert, if_neg h, List.map_cons, List.mem_cons, ih]
      tauto

theorem dictInsert_keys_nodup (k : Coord) (v : Estimate) (l : List (Coord × Estimate))
    (h : (l.map Prod.fst).Nodup) : ((dictInsert k v l).map Prod.fst).Nodup := by
  induction l with
  | nil => simp [dictInsert]
  | cons p rest ih =>
    obtain ⟨k₁, v₁⟩ := p
    simp only [List.map_cons, List.nodup_cons] at h
    by_cases hk : k₁ = k
    · subst hk
      simpa [dictInsert] using h
    · simp only [dictInsert, if_neg hk, List.map_cons, List.nodup_cons]
      refine ⟨?_, ih h.2⟩
      intro hmem
      rcases (dictInsert_keys_mem k k₁ v rest).mp hmem with h1 | h1
      · exact hk h1
      · exact h.1 h1

theorem foldl_heatmap_length (density_at : ℚ → ℚ → Option ℚ) :
    ∀ (evs : List Event) (s : State),
    ((evs.foldl (process_step density_at) s).heatmap_data).length
      = s.heatmap_data.length + evs.length := by
  intro evs
  induction evs with
  | nil => intro s; simp
  | cons e evs ih =>
    intro s
    simp only [List.foldl_cons, ih, process_step, List.length_append, List.length_cons]
    simp
    ring

theorem foldl_keys_mem (density_at : ℚ → ℚ → Option ℚ) (a : Coord) :
    ∀ (evs : List Event) (s : State),
    (a ∈ ((evs.foldl (process_step density_at) s).population_data).map Prod.fst ↔
      a ∈ s.population_data.map Prod.fst ∨ a ∈ evs.map (fun e => (e.lat, e.lon))) := by
  intro evs
  induction evs with
  | nil => intro s; simp
  | cons e evs ih =>
    intro s
    simp only [List.foldl_cons, ih, process_step, dictInsert_keys_mem,
      List.map_cons, List.mem_cons]
    tauto

theorem foldl_keys_nodup (density_at : ℚ → ℚ → Option ℚ) :
    ∀ (evs : List Event) (s : State),
    (s.population_data.map Prod.fst).Nodup →
    (((evs.foldl (process_step density_at) s).population_data).map Prod.fst).Nodup := by
  intro evs
  induction evs with
  | nil => intro s h; simpa using h
  | cons e evs ih =>
    intro s h
    exact ih _ (dictInsert_keys_nodup _ _ _ h)

/-- Counterexample to claim C6: two distinct events sharing the same
coordinates produce a single stored estimate — the dict keyed by
`(lat, lon)` merges them, so the estimate count is 1 while the event count
is 2. -/
theorem duplicate_coordinates_merge_estimates :
    (process_usgs_data (fun _ _ => none) [⟨0, 0, 1⟩, ⟨0, 0, 2⟩]
        ⟨[], []⟩).population_data.length = 1 ∧
    ([⟨0, 0, 1⟩, ⟨0, 0, 2⟩] : List Event).length = 2 := by
  constructor <;> rfl

/-- Claim C6 (amended): after processing a nonempty event list the heatmap
sequence has exactly one entry per ingested event, while the stored
estimate map has exactly one entry per distinct `(lat, lon)` coordinate —
its keys are duplicate-free and are exactly the ingested coordinates, so
coordinate collisions make it shorter than the event list. -/
theorem snapshot_counts (density_at : ℚ → ℚ → Option ℚ)
    (evs : List Event) (st : State) (h : evs ≠ []) :
    (process_usgs_data density_at evs st).heatmap_data.length = evs.length ∧
    (((process_usgs_data density_at evs st).population_data).map Prod.fst).Nodup ∧
    ∀ k : Coord, k ∈ ((process_usgs_data density_at evs st).population_data).map Prod.fst ↔
      k ∈ evs.map (fun e => (e.lat, e.lon)) := by
  simp only [process_usgs_data, if_neg h]
  refine ⟨?_, ?_, ?_⟩
  · simpa using foldl_heatmap_length density_at evs ⟨[], []⟩
  · exact foldl_keys_nodup density_at evs ⟨[], []⟩ (by simp)
  · intro k
    simpa using foldl_keys_mem density_at k evs ⟨[], []⟩

/-- Witness for C6 (amended): a one-event list gives a one-entry heatmap
and the single ingested coordinate as the only key. -/
theorem snapshot_counts_witness :
    (process_usgs_data (fun _ _ => none) [⟨1, 2, 3⟩] ⟨[], []⟩).heatmap_data.length = 1 ∧
    ((1, 2) ∈ ((process_usgs_data (fun _ _ => none) [⟨1, 2, 3⟩] ⟨[], []⟩).population_data).map
        Prod.fst ↔
      ((1 : ℚ), (2 : ℚ)) ∈ ([⟨1, 2, 3⟩] : List Event).map (fun e => (e.lat, e.lon))) := by
  have h := snapshot_counts (fun _ _ => none) [⟨1, 2, 3⟩] ⟨[], []⟩ (by simp)
  exact ⟨h.1, h.2.2 (1, 2)⟩

theorem dictGet_dictInsert (k k₀ : Coord) (v : Estimate) (l : List (Coord × Estimate)) :
    dictGet k (dictInsert k₀ v l) = if k₀ = k then some v else dictGet k l := by
  induction l with
  | nil => simp [dictInsert, dictGet]
  | cons p rest ih =>
    obtain ⟨k₁, v₁⟩ := p
    by_cases h1 : k₁ = k₀
    · subst h1
      by_cases h2 : k₁ = k
      · subst h2
        simp [dictInsert, dictGet]
      · simp [dictInsert, dictGet, h2]
    · by_cases h2 : k₁ = k
      · subst h2
        have hne : ¬ k₀ = k₁ := fun hh => h1 hh.symm
        simp [dictInsert, dictGet, h1, hne]
      · simp [dictInsert, dictGet, h1, h2, ih]

theorem foldl_dictGet (density_at : ℚ → ℚ → Option ℚ) (k : Coord) (evs : List Event) :
    ∀ (s : State),
    dictGet k ((evs.foldl (process_step density_at) s).population_data)
      = ((evs.filter (fun e => (e.lat, e.lon) = k)).getLast?).elim
          (dictGet k s.population_data)
          (fun e => some (estimate_affected_people density_at e.lat e.lon e.mag)) := by
  induction evs using List.reverseRecOn with
  | nil => intro s; simp
  | append_singleton evs e ih =>
    intro s
    rw [List.foldl_append]
    simp only [List.foldl_cons, List.foldl_nil, process_step, dictGet_dictInsert,
      List.filter_append]
    by_cases hk : (e.lat, e.lon) = k
    · simp [hk, List.filter_cons, List.getLast?_concat]
    · simp [List.filter_cons, hk, ih s]

/-- The density oracle of the worked example in the spec: 100 people/km²
at (28.6, 77.2) and 200 people/km² at (19, 72.8). -/
def density_example (lat lon : ℚ) : Option ℚ :=
  if lat = 28.6 ∧ lon = 77.2 then some 100
  else if lat = 19 ∧ lon = 72.8 then some 200
  else none

theorem floor_250000_pi : ⌊(250000 : ℝ) * Real.pi⌋ = 785398 := by
  have h1 := Real.pi_gt_d6
  have h2 := Real.pi_lt_d6
  rw [Int.floor_eq_iff]
  constructor
  · push_cast
    nlinarith
  · push_cast
    nlinarith

theorem floor_720000_pi : ⌊(720000 : ℝ) * Real.pi⌋ = 2261946 := by
  have h1 := Real.pi_gt_d6
  have h2 := Real.pi_lt_d6
  rw [Int.floor_eq_iff]
  constructor
  · push_cast
    nlinarith
  · push_cast
    nlinarith

theorem estimate_example_first :
    estimate_affected_people density_example 28.6 77.2 5 = some 785398 := by
  have h : density_example 28.6 77.2 = some 100 := by norm_num [density_example]
  simp only [estimate_affected_people, h]
  have hnn : (0 : ℝ) ≤ ((100 : ℚ) : ℝ) * (Real.pi * (((5 * 10 : ℚ) : ℝ)) ^ 2) := by
    positivity
  rw [int_trunc_of_nonneg _ hnn]
  have harg : ((100 : ℚ) : ℝ) * (Real.pi * (((5 * 10 : ℚ) : ℝ)) ^ 2)
      = (250000 : ℝ) * Real.pi := by
    push_cast
    ring
  rw [harg, floor_250000_pi]

theorem estimate_example_second :
    estimate_affected_people density_example 19 72.8 6 = some 2261946 := by
  have h : density_example 19 72.8 = some 200 := by norm_num [density_example]
  simp only [estimate_affected_people, h]
  have hnn : (0 : ℝ) ≤ ((200 : ℚ) : ℝ) * (Real.pi * (((6 * 10 : ℚ) : ℝ)) ^ 2) := by
    positivity
  rw [int_trunc_of_nonneg _ hnn]
  have harg : ((200 : ℚ) : ℝ) * (Real.pi * (((6 * 10 : ℚ) : ℝ)) ^ 2)
      = (720000 : ℝ) * Real.pi := by
    push_cast
    ring
  rw [harg, floor_720000_pi]

/-- Counterexample to claim C8: on the worked example, the estimate for
the magnitude-6 event at density 200 is `⌊720000 * pi⌋ = 2261946`, not the
2262743 the claim states. -/
theorem example_estimate_not_2262743 :
    estimate_affected_people density_example 19 72.8 6 = some 2261946 ∧
    (some 2261946 : Estimate) ≠ some 2262743 := by
  refine ⟨estimate_example_second, by decide⟩

/-- Claim C8 (amended): on the example events
`[(28.6, 77.2, mag 5), (19, 72.8, mag 6)]` with densities 100 and 200, the
computed estimates are 785398 and 2261946, and the most-severe event
selected for the alert is the magnitude-6 event. -/
theorem example_snapshot :
    (process_usgs_data density_example [⟨28.6, 77.2, 5⟩, ⟨19, 72.8, 6⟩]
        ⟨[], []⟩).population_data
      = [((28.6, 77.2), some 785398), ((19, 72.8), some 2261946)] ∧
    most_extreme ((process_usgs_data density_example [⟨28.6, 77.2, 5⟩, ⟨19, 72.8, 6⟩]
        ⟨[], []⟩).heatmap_data) = some (19, 72.8, 6) := by
  have hne : ([⟨28.6, 77.2, 5⟩, ⟨19, 72.8, 6⟩] : List Event) ≠ [] := by simp
  have hkne : ¬ ((28.6 : ℚ), (77.2 : ℚ)) = ((19 : ℚ), (72.8 : ℚ)) := by
    norm_num [Prod.ext_iff]
  constructor
  · simp only [process_usgs_data, List.foldl_cons, List.foldl_nil, process_step]
    rw [if_neg hne]
    rw [estimate_example_first, estimate_example_second]
    simp [dictInsert, hkne]
  · simp only [process_usgs_data, List.foldl_cons, List.foldl_nil, process_step]
    rw [if_neg hne]
    simp only [most_extreme, List.foldl_cons, List.foldl_nil]
    norm_num

/-- Claim C10: with duplicate coordinates in the event list, the stored
per-coordinate value is the estimate of the last event with that
coordinate in input order (more generally, looking up any coordinate
returns the estimate of the last matching event, or nothing when no event
matches), while the heatmap keeps one entry per event. -/
theorem last_write_wins (density_at : ℚ → ℚ → Option ℚ)
    (evs : List Event) (st : State) (h : evs ≠ []) (k : Coord) :
    dictGet k ((process_usgs_data density_at evs st).population_data)
      = ((evs.filter (fun e => (e.lat, e.lon) = k)).getLast?).map
          (fun e => estimate_affected_people density_at e.lat e.lon e.mag) ∧
    (process_usgs_data density_at evs st).heatmap_data.length = evs.length := by
  simp only [process_usgs_data, if_neg h]
  constructor
  · rw [foldl_dictGet density_at k evs ⟨[], []⟩]
    cases (evs.filter (fun e => (e.lat, e.lon) = k)).getLast? <;> simp [dictGet]
  · simpa using foldl_heatmap_length density_at evs ⟨[], []⟩

/-- Witness for C10: two events at coordinate (0, 0); the stored value is
the estimate of the second (magnitude 2) event and the heatmap has two
entries. -/
theorem last_write_wins_witness :
    dictGet (0, 0) ((process_usgs_data (fun _ _ => none) [⟨0, 0, 1⟩, ⟨0, 0, 2⟩]
        ⟨[], []⟩).population_data)
      = some (estimate_affected_people (fun _ _ => none) 0 0 2) ∧
    (process_usgs_data (fun _ _ => none) [⟨0, 0, 1⟩, ⟨0, 0, 2⟩]
        ⟨[], []⟩).heatmap_data.length = 2 := by
  have h := last_write_wins (fun _ _ => none) [⟨0, 0, 1⟩, ⟨0, 0, 2⟩] ⟨[], []⟩
    (by simp) (0, 0)
  refine ⟨?_, h.2⟩
  rw [h.1]
  rfl
